import Mathlib

/-!
Verification of the SwiftCRM backend's role-scoped query/authorization policy
and mutation-side-effect pipeline, as a shallow embedding of the Express route
handlers (routes/leads.js, routes/activities.js, routes/dashboard.js) and the
Sequelize models (models/Lead.js, models/Activity.js).

Persistence is modelled as explicit state (`DB`): a list of Lead rows, a list
of Activity rows, and the auto-increment counters.  Each route handler's
success path becomes a function from the old state (plus principal and request
body) to the new state, the emitted audit Activities, and the notification
attempts; the 404/403 early returns become `Except` errors.  SQL `ORDER BY`
only permutes rows before the page window and no property below depends on
row order, so result ordering is modelled as stored order.
-/

namespace SwiftCRM

/-- The `role` ENUM of the users table: 'Admin', 'Manager', 'Sales Executive'. -/
inductive Role where
  | Admin
  | Manager
  | SalesExecutive
deriving DecidableEq, Repr

/-- The Lead `status` ENUM from models/Lead.js. -/
inductive Status where
  | New
  | Contacted
  | Qualified
  | Proposal
  | Negotiation
  | Won
  | Lost
deriving DecidableEq, Repr

/-- The string stored for each `status` ENUM member. -/
def Status.str : Status → String
  | .New => "New"
  | .Contacted => "Contacted"
  | .Qualified => "Qualified"
  | .Proposal => "Proposal"
  | .Negotiation => "Negotiation"
  | .Won => "Won"
  | .Lost => "Lost"

/-- The Activity `type` ENUM from models/Activity.js; `StatusChange` is the
ENUM string 'Status Change'. -/
inductive ActivityType where
  | Note
  | Call
  | Meeting
  | Email
  | StatusChange
deriving DecidableEq, Repr

/-- The authenticated per-request principal (`req.user`): id and role. -/
structure Principal where
  id : Nat
  role : Role
deriving DecidableEq, Repr

/-- A row of the `leads` table (models/Lead.js).  `estimatedValue` is
DECIMAL(10,2), modelled exactly over ℚ.  `createdAt`/`updatedAt` timestamps
are not modelled: no property below depends on them. -/
structure Lead where
  id : Nat
  name : String
  email : String
  phone : Option String
  company : Option String
  status : Status
  source : Option String
  estimatedValue : Rat
  assignedToId : Option Nat
  createdById : Nat
  notes : Option String
deriving DecidableEq, Repr

/-- A row of the `activities` table (models/Activity.js).  `metadata` is a
JSONB object, modelled as an association list of string pairs (the audit
entries only ever store flat string fields). -/
structure Activity where
  id : Nat
  type : ActivityType
  title : String
  description : Option String
  leadId : Nat
  userId : Nat
  metadata : List (String × String)
deriving DecidableEq, Repr

/-- The persistent store: the two tables plus their auto-increment counters. -/
structure DB where
  leads : List Lead
  activities : List Activity
  nextLeadId : Nat
  nextActivityId : Nat
deriving DecidableEq, Repr

/-- `Lead.findByPk(id)`. -/
def findLead (db : DB) (id : Nat) : Option Lead :=
  db.leads.find? (fun l => l.id == id)

/-- `Activity.findByPk(id)`. -/
def findActivity (db : DB) (id : Nat) : Option Activity :=
  db.activities.find? (fun a => a.id == id)

/-- The 404/403 early returns of the route handlers. -/
inductive ApiError where
  | NotFound
  | Forbidden
deriving DecidableEq, Repr

/-- The best-effort email notifications (utils/email.js templates). -/
inductive NotifKind where
  | leadAssigned
  | leadStatusChanged
  | newActivity
deriving DecidableEq, Repr

/-- One notification attempt: the handler looks up the target user and sends a
best-effort email; modelled as the attempt event aimed at that user id. -/
structure Notification where
  toUserId : Nat
  kind : NotifKind
deriving DecidableEq, Repr

/-! ### GET /api/leads — list with filters (routes/leads.js) -/

/-- The query parameters of GET /api/leads (after the numeric ones are parsed). -/
structure LeadQuery where
  status : Option Status
  assignedToId : Option Nat
  search : Option String
  page : Nat
  limit : Nat
deriving DecidableEq, Repr

/-- Does `small` occur at the head of `big`? (character-list matching used to
model SQL substring search). -/
def headMatch : List Char → List Char → Bool
  | [], _ => true
  | _ :: _, [] => false
  | a :: as, b :: bs => a == b && headMatch as bs

/-- Does `small` occur anywhere inside `big`? -/
def containsSub (small : List Char) : List Char → Bool
  | [] => small.isEmpty
  | c :: cs => headMatch small (c :: cs) || containsSub small cs

/-- `field ILIKE '%search%'`: case-insensitive substring match; a NULL column
never matches. -/
def iLikeContains (field : Option String) (search : String) : Bool :=
  match field with
  | none => false
  | some s => containsSub (search.data.map Char.toLower) (s.data.map Char.toLower)

/-- The role-based condition pushed for 'Sales Executive' principals
(`Op.or` of assignedToId / createdById equality); Managers and Admins get no
visibility condition.  The identical clause is rebuilt in routes/dashboard.js. -/
def visibilityOk (p : Principal) (l : Lead) : Bool :=
  match p.role with
  | .SalesExecutive => l.assignedToId == some p.id || l.createdById == p.id
  | _ => true

/-- The optional filter conditions of GET /api/leads: status equality,
assignedToId equality, and the three-way `Op.or` ILIKE search over
name/email/company, all ANDed. -/
def leadFilterOk (q : LeadQuery) (l : Lead) : Bool :=
  (match q.status with
   | some s => l.status == s
   | none => true) &&
  (match q.assignedToId with
   | some a => l.assignedToId == some a
   | none => true) &&
  (match q.search with
   | some s => iLikeContains (some l.name) s || iLikeContains (some l.email) s ||
       iLikeContains l.company s
   | none => true)

/-- The combined `where` object of GET /api/leads: the visibility condition
ANDed with every present filter. -/
def leadWhere (p : Principal) (q : LeadQuery) (l : Lead) : Bool :=
  visibilityOk p l && leadFilterOk q l

/-- GET /api/leads: filter, then the page window
`offset = (page-1)*limit, limit` (`ORDER BY` permutes rows before the window;
modelled as stored order). -/
def getLeads (db : DB) (p : Principal) (q : LeadQuery) : List Lead :=
  ((db.leads.filter (leadWhere p q)).drop ((q.page - 1) * q.limit)).take q.limit

/-! ### GET /api/leads/:id (routes/leads.js) -/

/-- GET /api/leads/:id: fetch by primary key (404 if absent), then the
Sales-Executive ownership check (403), mirroring the handler's order. -/
def getLead (db : DB) (p : Principal) (id : Nat) : Except ApiError Lead :=
  match findLead db id with
  | none => .error .NotFound
  | some lead =>
    if p.role == .SalesExecutive && lead.assignedToId != some p.id &&
        lead.createdById != p.id then
      .error .Forbidden
    else
      .ok lead

/-! ### POST /api/leads — create (routes/leads.js) -/

/-- The POST /api/leads request body after validation (name non-empty, email
valid, status in the ENUM, estimatedValue ≥ 0).  Optional fields absent from
the body are `none`. -/
structure CreateLeadBody where
  name : String
  email : String
  phone : Option String
  company : Option String
  status : Option Status
  source : Option String
  estimatedValue : Option Rat
  assignedToId : Option Nat
  notes : Option String
deriving DecidableEq, Repr

/-- POST /api/leads, success path.  The handler builds
`{...req.body, createdById: req.user.id, assignedToId: req.body.assignedToId || req.user.id}`:
`createdById` is forced to the acting principal, and JS `||` falls back to the
principal when the body's assignedToId is absent, null or 0.  It then creates
exactly one audit Activity {type: 'Note', title: 'Lead Created'} authored by
the principal, and attempts a leadAssigned notification when the lead is
assigned to someone else.  Returns (new state, new lead, audit activity,
notification attempts). -/
def createLead (db : DB) (p : Principal) (b : CreateLeadBody) :
    DB × Lead × Activity × List Notification :=
  let newLead : Lead :=
    { id := db.nextLeadId
      name := b.name
      email := b.email
      phone := b.phone
      company := b.company
      status := b.status.getD Status.New
      source := b.source
      estimatedValue := b.estimatedValue.getD 0
      assignedToId :=
        match b.assignedToId with
        | some a => if a == 0 then some p.id else some a
        | none => some p.id
      createdById := p.id
      notes := b.notes }
  let act : Activity :=
    { id := db.nextActivityId
      type := ActivityType.Note
      title := "Lead Created"
      description := some ("Lead \"" ++ newLead.name ++ "\" was created")
      leadId := newLead.id
      userId := p.id
      metadata := [] }
  let notifs : List Notification :=
    match newLead.assignedToId with
    | some a => if a != p.id then [⟨a, NotifKind.leadAssigned⟩] else []
    | none => []
  ({ leads := db.leads ++ [newLead]
     activities := db.activities ++ [act]
     nextLeadId := db.nextLeadId + 1
     nextActivityId := db.nextActivityId + 1 }, newLead, act, notifs)

/-! ### PUT /api/leads/:id — partial update (routes/leads.js) -/

/-- The PUT /api/leads/:id request body.  `lead.update(req.body)` applies every
model attribute present in the body, so nullable columns distinguish three
cases: `none` = field absent (kept), `some none` = explicit null (cleared),
`some (some v)` = set to v.  Non-nullable columns are absent or a value.
`createdById` is an attribute like any other here: the handler does not strip
it from the body. -/
structure UpdateLeadBody where
  name : Option String
  email : Option String
  phone : Option (Option String)
  company : Option (Option String)
  status : Option Status
  source : Option (Option String)
  estimatedValue : Option Rat
  assignedToId : Option (Option Nat)
  createdById : Option Nat
  notes : Option (Option String)
deriving DecidableEq, Repr

/-- `lead.update(req.body)`: apply exactly the attributes present in the body. -/
def applyUpdate (l : Lead) (b : UpdateLeadBody) : Lead :=
  { l with
    name := b.name.getD l.name
    email := b.email.getD l.email
    phone := b.phone.getD l.phone
    company := b.company.getD l.company
    status := b.status.getD l.status
    source := b.source.getD l.source
    estimatedValue := b.estimatedValue.getD l.estimatedValue
    assignedToId := b.assignedToId.getD l.assignedToId
    createdById := b.createdById.getD l.createdById
    notes := b.notes.getD l.notes }

/-- The audit Activity for a status change: type 'Status Change', with the
old/new statuses in `metadata`. -/
def mkStatusChangeActivity (actId : Nat) (p : Principal) (leadId : Nat)
    (oldS newS : Status) : Activity :=
  { id := actId
    type := ActivityType.StatusChange
    title := "Status Changed"
    description := some ("Status changed from \"" ++ oldS.str ++ "\" to \"" ++
      newS.str ++ "\"")
    leadId := leadId
    userId := p.id
    metadata := [("oldStatus", oldS.str), ("newStatus", newS.str)] }

/-- The audit Activity for a reassignment: type 'Note', title 'Lead Reassigned'.
(The source interpolates the assignee's display name into the description; user
display data is not modelled.) -/
def mkReassignedActivity (actId : Nat) (p : Principal) (leadId : Nat) : Activity :=
  { id := actId
    type := ActivityType.Note
    title := "Lead Reassigned"
    description := some "Lead reassigned"
    leadId := leadId
    userId := p.id
    metadata := [] }

/-- The status-change audit guard of PUT /api/leads/:id:
`req.body.status && req.body.status !== oldStatus` (an absent status never
fires; the ENUM validator bars falsy present values other than null). -/
def statusAudit (db : DB) (p : Principal) (lead : Lead) (b : UpdateLeadBody) :
    List Activity :=
  match b.status with
  | some s =>
    if s != lead.status then
      [mkStatusChangeActivity db.nextActivityId p lead.id lead.status s]
    else []
  | none => []

/-- The notification attempt of the status-change branch: sent to the lead's
(post-update) assignee when one is set. -/
def statusNotifs (lead : Lead) (b : UpdateLeadBody) : List Notification :=
  match b.status with
  | some s =>
    if s != lead.status then
      match (applyUpdate lead b).assignedToId with
      | some a => [⟨a, NotifKind.leadStatusChanged⟩]
      | none => []
    else []
  | none => []

/-- The reassignment audit guard of PUT /api/leads/:id:
`req.body.assignedToId && req.body.assignedToId !== oldAssignedToId`.
JS truthiness makes an explicit null (and 0) never fire the guard. -/
def reassignAudit (db : DB) (p : Principal) (lead : Lead) (b : UpdateLeadBody) :
    List Activity :=
  match b.assignedToId with
  | some (some a) =>
    if a != 0 && (some a : Option Nat) != lead.assignedToId then
      [mkReassignedActivity (db.nextActivityId + (statusAudit db p lead b).length)
        p lead.id]
    else []
  | _ => []

/-- The notification attempt of the reassignment branch: sent to the lead's
(post-update) assignee when one is set. -/
def reassignNotifs (lead : Lead) (b : UpdateLeadBody) : List Notification :=
  match b.assignedToId with
  | some (some a) =>
    if a != 0 && (some a : Option Nat) != lead.assignedToId then
      match (applyUpdate lead b).assignedToId with
      | some x => [⟨x, NotifKind.leadAssigned⟩]
      | none => []
    else []
  | _ => []

/-- PUT /api/leads/:id: fetch (404), Sales-Executive ownership check (403),
then `lead.update(req.body)` plus the two audit/notification branches.
Returns the (possibly unchanged) state together with the outcome: on success
the updated lead, the audit Activities created, and the notification attempts. -/
def updateLead (db : DB) (p : Principal) (id : Nat) (b : UpdateLeadBody) :
    DB × Except ApiError (Lead × List Activity × List Notification) :=
  match findLead db id with
  | none => (db, .error .NotFound)
  | some lead =>
    if p.role == .SalesExecutive && lead.assignedToId != some p.id &&
        lead.createdById != p.id then
      (db, .error .Forbidden)
    else
      let updated := applyUpdate lead b
      let acts := statusAudit db p lead b ++ reassignAudit db p lead b
      let notifs := statusNotifs lead b ++ reassignNotifs lead b
      ({ leads := db.leads.map (fun l => if l.id == id then updated else l)
         activities := db.activities ++ acts
         nextLeadId := db.nextLeadId
         nextActivityId := db.nextActivityId + acts.length },
       .ok (updated, acts, notifs))

/-! ### DELETE /api/leads/:id (routes/leads.js) -/

/-- Modelled from the spec: the `authorize('Admin', 'Manager')` route guard
(src/middleware/auth.js is not among the sources; routes/leads.js mounts it on
DELETE).  Per the spec, `canDelete(principal)` is true only if
role ∈ {Manager, Admin}, checked before any fetch. -/
def canDelete (p : Principal) : Bool :=
  p.role == .Admin || p.role == .Manager

/-- DELETE /api/leads/:id: the role guard runs before the handler (403 with no
fetch), then fetch (404), then `lead.destroy()`; `activities.leadId` is
declared ON DELETE CASCADE, so the lead's activities are removed with it. -/
def deleteLead (db : DB) (p : Principal) (id : Nat) : DB × Except ApiError Unit :=
  if !canDelete p then
    (db, .error .Forbidden)
  else
    match findLead db id with
    | none => (db, .error .NotFound)
    | some lead =>
      ({ db with
          leads := db.leads.filter (fun l => l.id != lead.id)
          activities := db.activities.filter (fun a => a.leadId != lead.id) },
       .ok ())

/-! ### GET /api/activities — list with filters (routes/activities.js) -/

/-- The query parameters of GET /api/activities. -/
structure ActivityQuery where
  leadId : Option Nat
  type : Option ActivityType
  page : Nat
  limit : Nat
deriving DecidableEq, Repr

/-- The `where` object of GET /api/activities: only the optional leadId and
type equalities — the handler pushes no role-based condition at all. -/
def activityWhere (q : ActivityQuery) (a : Activity) : Bool :=
  (match q.leadId with
   | some i => a.leadId == i
   | none => true) &&
  (match q.type with
   | some t => a.type == t
   | none => true)

/-- GET /api/activities: filter, then the page window.  The principal is
available to the handler (`req.user`) but unused in its query. -/
def getActivities (db : DB) (_p : Principal) (q : ActivityQuery) : List Activity :=
  ((db.activities.filter (activityWhere q)).drop ((q.page - 1) * q.limit)).take
    q.limit

/-! ### PUT/DELETE /api/activities/:id (routes/activities.js) -/

/-- The PUT /api/activities/:id request body: `activity.update(req.body)`
applies every model attribute present, as for leads. -/
structure UpdateActivityBody where
  type : Option ActivityType
  title : Option String
  description : Option (Option String)
  leadId : Option Nat
  userId : Option Nat
  metadata : Option (List (String × String))
deriving DecidableEq, Repr

/-- `activity.update(req.body)`. -/
def applyActivityUpdate (a : Activity) (b : UpdateActivityBody) : Activity :=
  { a with
    type := b.type.getD a.type
    title := b.title.getD a.title
    description := b.description.getD a.description
    leadId := b.leadId.getD a.leadId
    userId := b.userId.getD a.userId
    metadata := b.metadata.getD a.metadata }

/-- PUT /api/activities/:id: fetch (404), then the author-or-Admin check
`activity.userId !== req.user.id && req.user.role !== 'Admin'` (403), then
update. -/
def updateActivity (db : DB) (p : Principal) (id : Nat) (b : UpdateActivityBody) :
    DB × Except ApiError Activity :=
  match findActivity db id with
  | none => (db, .error .NotFound)
  | some a =>
    if a.userId != p.id && p.role != .Admin then
      (db, .error .Forbidden)
    else
      let a' := applyActivityUpdate a b
      ({ db with
          activities := db.activities.map (fun x => if x.id == id then a' else x) },
       .ok a')

/-- DELETE /api/activities/:id: fetch (404), the same author-or-Admin check
(403), then `activity.destroy()`. -/
def deleteActivity (db : DB) (p : Principal) (id : Nat) : DB × Except ApiError Unit :=
  match findActivity db id with
  | none => (db, .error .NotFound)
  | some a =>
    if a.userId != p.id && p.role != .Admin then
      (db, .error .Forbidden)
    else
      ({ db with activities := db.activities.filter (fun x => x.id != id) },
       .ok ())

/-! ### GET /api/dashboard/stats (routes/dashboard.js) -/

/-- `Number.prototype.toFixed(2)` on a non-negative value: round half up to two
decimals, modelled exactly over ℚ. -/
def round2 (q : Rat) : Rat :=
  ((⌊q * 100 + 1 / 2⌋ : Int) : Rat) / 100

/-- The fields of the GET /api/dashboard/stats response used by the properties
below; `wonLeads` is the handler's intermediate Won count.  The grouping
aggregates (leadsByStatus, leadsBySource, monthlyTrend) depend only on the same
visibility set and are not needed by any property. -/
structure DashboardStats where
  totalLeads : Nat
  wonLeads : Nat
  totalValue : Rat
  conversionRate : Rat
  recentActivities : List Activity
deriving DecidableEq, Repr

/-- GET /api/dashboard/stats: every lead aggregate is taken over the same
role-scoped `leadWhere` clause (identical to `visibilityOk`); recentActivities
is restricted to the principal's own authored activities for a Sales Executive
and unscoped otherwise, 10 most recent (`ORDER BY createdAt DESC` permutes rows
before the window; modelled as stored order).  conversionRate is
`(wonLeads / totalLeads) * 100` rounded to two decimals, 0 when there are no
visible leads. -/
def dashboardStats (db : DB) (p : Principal) : DashboardStats :=
  let visible := db.leads.filter (visibilityOk p)
  let totalLeads := visible.length
  let wonLeads := (visible.filter (fun l => l.status == Status.Won)).length
  { totalLeads := totalLeads
    wonLeads := wonLeads
    totalValue := (visible.map Lead.estimatedValue).sum
    conversionRate :=
      if totalLeads > 0 then
        round2 (((wonLeads : Rat) / (totalLeads : Rat)) * 100)
      else 0
    recentActivities :=
      (db.activities.filter (fun a =>
        if p.role == .SalesExecutive then a.userId == p.id else true)).take 10 }

/-! ### Concrete fixtures used by the witness and counterexample theorems -/

/-- A lead owned (assigned and created) by user 2. -/
def lead1 : Lead :=
  { id := 1, name := "Acme deal", email := "acme@example.com", phone := none,
    company := some "Acme", status := Status.New, source := none,
    estimatedValue := 0, assignedToId := some 2, createdById := 2, notes := none }

/-- A lead owned (assigned and created) by user 1, already Won. -/
def lead2 : Lead :=
  { id := 2, name := "Globex deal", email := "globex@example.com", phone := none,
    company := some "Globex", status := Status.Won, source := none,
    estimatedValue := 5, assignedToId := some 1, createdById := 1, notes := none }

/-- An activity authored by user 2 on lead 1. -/
def act1 : Activity :=
  { id := 1, type := ActivityType.Call, title := "Intro call", description := none,
    leadId := 1, userId := 2, metadata := [] }

/-- An empty store. -/
def db0 : DB := { leads := [], activities := [], nextLeadId := 1, nextActivityId := 1 }

/-- A store with `lead1`, `lead2` and `act1`. -/
def db1 : DB :=
  { leads := [lead1, lead2], activities := [act1], nextLeadId := 3,
    nextActivityId := 2 }

/-- A lead assigned to user 5, created by user 3. -/
def lead3 : Lead :=
  { id := 5, name := "Initech deal", email := "initech@example.com", phone := none,
    company := none, status := Status.Contacted, source := none,
    estimatedValue := 0, assignedToId := some 5, createdById := 3, notes := none }

/-- A store with just `lead3`. -/
def db2 : DB := { leads := [lead3], activities := [], nextLeadId := 6, nextActivityId := 1 }

/-- The query with no filters and the default page window. -/
def emptyQuery : LeadQuery :=
  { status := none, assignedToId := none, search := none, page := 1, limit := 10 }

/-- The activity query with no filters and the default page window. -/
def emptyActivityQuery : ActivityQuery :=
  { leadId := none, type := none, page := 1, limit := 50 }

/-- The update body with every field absent. -/
def emptyBody : UpdateLeadBody :=
  { name := none, email := none, phone := none, company := none, status := none,
    source := none, estimatedValue := none, assignedToId := none,
    createdById := none, notes := none }

/-- An update body carrying only `createdById: 99`. -/
def bodyCreatedById99 : UpdateLeadBody := { emptyBody with createdById := some 99 }

/-- An update body carrying only `status: "Won"`. -/
def bodyStatusWon : UpdateLeadBody := { emptyBody with status := some Status.Won }

/-- An update body carrying only an explicit `assignedToId: null`. -/
def bodyAssignNull : UpdateLeadBody := { emptyBody with assignedToId := some none }

/-- An update body carrying only `assignedToId: 7`. -/
def bodyAssign7 : UpdateLeadBody := { emptyBody with assignedToId := some (some 7) }

/-- The activity update body with every field absent. -/
def emptyActivityBody : UpdateActivityBody :=
  { type := none, title := none, description := none, leadId := none,
    userId := none, metadata := none }

/-! ### Theorems -/

/-- C1: for a Sales Executive principal, every lead returned by GET /api/leads
is assigned to or created by the principal; for a Manager or Admin, the
combined `where` clause is exactly the requested filters — no visibility
restriction is applied. -/
theorem lead_list_visibility_scoping (db : DB) (p : Principal) (q : LeadQuery) :
    (p.role = Role.SalesExecutive →
      ∀ l ∈ getLeads db p q, l.assignedToId = some p.id ∨ l.createdById = p.id) ∧
    ((p.role = Role.Manager ∨ p.role = Role.Admin) →
      ∀ l, leadWhere p q l = leadFilterOk q l) := by
  constructor
  · intro hrole l hl
    have hl' : l ∈ db.leads.filter (leadWhere p q) :=
      List.mem_of_mem_drop (List.mem_of_mem_take hl)
    have hw : leadWhere p q l = true := List.of_mem_filter hl'
    have hv : visibilityOk p l = true := by
      have := (Bool.and_eq_true _ _).mp hw
      exact this.1
    unfold visibilityOk at hv
    rw [hrole] at hv
    simpa using hv
  · intro hrole l
    unfold leadWhere visibilityOk
    rcases hrole with h | h <;> rw [h] <;> simp

/-- Witness for C1: Sales Executive 1 lists `db1` with no filters; the theorem
yields that the returned `lead2` is assigned to or created by user 1. -/
theorem lead_list_visibility_scoping_witness :
    lead2.assignedToId = some 1 ∨ lead2.createdById = 1 :=
  (lead_list_visibility_scoping db1 ⟨1, Role.SalesExecutive⟩ emptyQuery).1 rfl
    lead2 (by decide)

/-- C3: GET /api/leads/:id and PUT /api/leads/:id fetch before authorizing —
an absent lead yields NotFound; an existing lead that a Sales Executive
neither is assigned to nor created yields Forbidden (never NotFound); in both
failure cases the store is returned unchanged. -/
theorem lead_fetch_before_authorize (db : DB) (p : Principal) (id : Nat)
    (b : UpdateLeadBody) :
    (findLead db id = none →
      getLead db p id = .error .NotFound ∧
      updateLead db p id b = (db, .error .NotFound)) ∧
    (∀ l, findLead db id = some l → p.role = Role.SalesExecutive →
      l.assignedToId ≠ some p.id → l.createdById ≠ p.id →
      getLead db p id = .error .Forbidden ∧
      updateLead db p id b = (db, .error .Forbidden)) := by
  constructor
  · intro h
    unfold getLead updateLead
    rw [h]
    exact ⟨rfl, rfl⟩
  · intro l h hrole hA hC
    have hcond : (p.role == Role.SalesExecutive && l.assignedToId != some p.id &&
        l.createdById != p.id) = true := by
      simp [hrole, hA, hC]
    unfold getLead updateLead
    rw [h]
    simp [hcond]

/-- Witness for C3: a missing id in the empty store yields NotFound, and
Sales Executive 1 requesting `lead1` (owned by user 2) yields Forbidden, with
the store unchanged in both cases. -/
theorem lead_fetch_before_authorize_witness :
    (getLead db0 ⟨1, Role.SalesExecutive⟩ 9 = .error .NotFound ∧
      updateLead db0 ⟨1, Role.SalesExecutive⟩ 9 emptyBody =
        (db0, .error .NotFound)) ∧
    (getLead db1 ⟨1, Role.SalesExecutive⟩ 1 = .error .Forbidden ∧
      updateLead db1 ⟨1, Role.SalesExecutive⟩ 1 emptyBody =
        (db1, .error .Forbidden)) :=
  ⟨(lead_fetch_before_authorize db0 ⟨1, Role.SalesExecutive⟩ 9 emptyBody).1 rfl,
   (lead_fetch_before_authorize db1 ⟨1, Role.SalesExecutive⟩ 1 emptyBody).2 lead1
     rfl rfl (by decide) (by decide)⟩

/-- C4: DELETE /api/leads/:id is guarded by role before any fetch: a Sales
Executive always gets Forbidden with the store unchanged, for every store and
id (so neither removal nor existence disclosure is possible), and any
successful delete was performed by a Manager or Admin. -/
theorem lead_delete_role_guard (db : DB) (p : Principal) (id : Nat) :
    (p.role = Role.SalesExecutive →
      deleteLead db p id = (db, .error .Forbidden)) ∧
    (∀ u, (deleteLead db p id).2 = .ok u →
      p.role = Role.Manager ∨ p.role = Role.Admin) := by
  constructor
  · intro h
    unfold deleteLead canDelete
    rw [h]
    rfl
  · intro u h
    cases hr : p.role with
    | Admin => exact Or.inr rfl
    | Manager => exact Or.inl rfl
    | SalesExecutive =>
      simp [deleteLead, canDelete, hr] at h

/-- Witness for C4: Sales Executive 1 cannot delete lead 1 even though it
exists, while Manager 3 can. -/
theorem lead_delete_role_guard_witness :
    deleteLead db1 ⟨1, Role.SalesExecutive⟩ 1 = (db1, .error .Forbidden) ∧
    (Principal.role ⟨3, Role.Manager⟩ = Role.Manager ∨
      Principal.role ⟨3, Role.Manager⟩ = Role.Admin) :=
  ⟨(lead_delete_role_guard db1 ⟨1, Role.SalesExecutive⟩ 1).1 rfl,
   (lead_delete_role_guard db1 ⟨3, Role.Manager⟩ 1).2 () rfl⟩

/-- C2 (refuted by the code at this input): POST /api/leads forces
`createdById` to the acting principal, but PUT /api/leads/:id passes the raw
body to `lead.update`, so a body carrying `createdById: 99` changes the stored
createdById of lead 1 from 1 to 99 — the creation-time value does not survive
every update request. -/
theorem lead_update_overwrites_createdById :
    lead1.createdById = 2 ∧
    (updateLead db1 ⟨3, Role.Manager⟩ 1 bodyCreatedById99).2 =
      .ok (applyUpdate lead1 bodyCreatedById99, [], []) ∧
    (applyUpdate lead1 bodyCreatedById99).createdById = 99 ∧
    ((updateLead db1 ⟨3, Role.Manager⟩ 1 bodyCreatedById99).1.leads.map
      Lead.createdById) = [99, 1] :=
  ⟨by decide, by rfl, by decide, by decide⟩

/-- C5: PUT and DELETE /api/activities/:id succeed only for the activity's
author or an Admin; any principal (in particular a Manager) who is neither is
denied with Forbidden; and the decision never consults the leads table. -/
theorem activity_mutation_author_or_admin (db : DB) (p : Principal) (id : Nat)
    (b : UpdateActivityBody) :
    (∀ a', (updateActivity db p id b).2 = .ok a' →
      ∃ a, findActivity db id = some a ∧
        (a.userId = p.id ∨ p.role = Role.Admin)) ∧
    (∀ u, (deleteActivity db p id).2 = .ok u →
      ∃ a, findActivity db id = some a ∧
        (a.userId = p.id ∨ p.role = Role.Admin)) ∧
    (∀ a, findActivity db id = some a → a.userId ≠ p.id → p.role ≠ Role.Admin →
      (updateActivity db p id b).2 = .error .Forbidden ∧
      (deleteActivity db p id).2 = .error .Forbidden) ∧
    (∀ L, (updateActivity { db with leads := L } p id b).2 =
        (updateActivity db p id b).2 ∧
      (deleteActivity { db with leads := L } p id).2 =
        (deleteActivity db p id).2) := by
  refine ⟨?_, ?_, ?_, ?_⟩
  · intro a' h
    cases hf : findActivity db id with
    | none => simp [updateActivity, hf] at h
    | some a =>
      simp only [updateActivity, hf] at h
      refine ⟨a, rfl, ?_⟩
      by_cases hu : a.userId = p.id
      · exact Or.inl hu
      · by_cases hr : p.role = Role.Admin
        · exact Or.inr hr
        · have hg : (a.userId != p.id && p.role != Role.Admin) = true := by
            simp [hu, hr]
          rw [hg] at h
          simp at h
  · intro u h
    cases hf : findActivity db id with
    | none => simp [deleteActivity, hf] at h
    | some a =>
      simp only [deleteActivity, hf] at h
      refine ⟨a, rfl, ?_⟩
      by_cases hu : a.userId = p.id
      · exact Or.inl hu
      · by_cases hr : p.role = Role.Admin
        · exact Or.inr hr
        · have hg : (a.userId != p.id && p.role != Role.Admin) = true := by
            simp [hu, hr]
          rw [hg] at h
          simp at h
  · intro a hf hu hr
    have hg : (a.userId != p.id && p.role != Role.Admin) = true := by
      simp [hu, hr]
    refine ⟨?_, ?_⟩
    · simp [updateActivity, hf, hg]
    · simp [deleteActivity, hf, hg]
  · intro L
    have hfe : findActivity { db with leads := L } id = findActivity db id := rfl
    refine ⟨?_, ?_⟩
    · cases hq : findActivity db id with
      | none => simp [updateActivity, hfe, hq]
      | some a =>
        simp only [updateActivity, hfe, hq]
        cases hg : (a.userId != p.id && p.role != Role.Admin) <;> simp [hg]
    · cases hq : findActivity db id with
      | none => simp [deleteActivity, hfe, hq]
      | some a =>
        simp only [deleteActivity, hfe, hq]
        cases hg : (a.userId != p.id && p.role != Role.Admin) <;> simp [hg]

/-- Witness for C5: Manager 3 is neither author of activity 1 (authored by
user 2) nor an Admin, so both mutation endpoints answer Forbidden. -/
theorem activity_mutation_author_or_admin_witness :
    (updateActivity db1 ⟨3, Role.Manager⟩ 1 emptyActivityBody).2 =
      .error .Forbidden ∧
    (deleteActivity db1 ⟨3, Role.Manager⟩ 1).2 = .error .Forbidden :=
  (activity_mutation_author_or_admin db1 ⟨3, Role.Manager⟩ 1
    emptyActivityBody).2.2.1 act1 rfl (by decide) (by decide)

/-- C6: every successful Lead creation appends exactly one audit Activity —
of type Note, titled "Lead Created", on the new lead, authored by the acting
principal — to the store. -/
theorem lead_create_audit (db : DB) (p : Principal) (b : CreateLeadBody) :
    (createLead db p b).2.2.1.type = ActivityType.Note ∧
    (createLead db p b).2.2.1.title = "Lead Created" ∧
    (createLead db p b).2.2.1.leadId = (createLead db p b).2.1.id ∧
    (createLead db p b).2.2.1.userId = p.id ∧
    (createLead db p b).1.activities = db.activities ++ [(createLead db p b).2.2.1] :=
  ⟨rfl, rfl, rfl, rfl, rfl⟩

/-- On a successful update, the outcome components are exactly the updated
lead, the two audit branches, and the two notification branches. -/
lemma updateLead_ok_parts (db : DB) (p : Principal) (id : Nat)
    (b : UpdateLeadBody) (l lead' : Lead) (acts : List Activity)
    (notifs : List Notification) (hfind : findLead db id = some l)
    (hok : (updateLead db p id b).2 = .ok (lead', acts, notifs)) :
    lead' = applyUpdate l b ∧
    acts = statusAudit db p l b ++ reassignAudit db p l b ∧
    notifs = statusNotifs l b ++ reassignNotifs l b := by
  simp only [updateLead, hfind] at hok
  cases hg : (p.role == Role.SalesExecutive && l.assignedToId != some p.id &&
      l.createdById != p.id) with
  | true => rw [hg] at hok; simp at hok
  | false =>
    rw [hg] at hok
    simp only [Bool.false_eq_true, if_false] at hok
    obtain ⟨h1, h2, h3⟩ := by simpa using hok
    exact ⟨h1.symm, h2.symm, h3.symm⟩

/-- When the body carries a status different from the stored one, the
status-change branch emits exactly its audit activity. -/
lemma statusAudit_of_change {b : UpdateLeadBody} {s : Status} (db : DB)
    (p : Principal) (l : Lead) (hs : b.status = some s) (hne : s ≠ l.status) :
    statusAudit db p l b =
      [mkStatusChangeActivity db.nextActivityId p l.id l.status s] := by
  unfold statusAudit
  rw [hs]
  simp [hne]

/-- When the status is absent from the body or unchanged, the status-change
branch emits nothing. -/
lemma statusAudit_of_nochange (db : DB) (p : Principal) (l : Lead)
    (b : UpdateLeadBody) (hs : b.status = none ∨ b.status = some l.status) :
    statusAudit db p l b = [] := by
  unfold statusAudit
  rcases hs with h | h
  · rw [h]
  · rw [h]
    simp

/-- The reassignment branch never emits a 'Status Change' activity. -/
lemma reassignAudit_filter_statusChange (db : DB) (p : Principal) (l : Lead)
    (b : UpdateLeadBody) :
    (reassignAudit db p l b).filter
      (fun a => a.type == ActivityType.StatusChange) = [] := by
  unfold reassignAudit
  split
  · split
    · simp [mkReassignedActivity]
    · rfl
  · rfl

/-- The status-change branch never emits a 'Lead Reassigned' note. -/
lemma statusAudit_filter_reassigned (db : DB) (p : Principal) (l : Lead)
    (b : UpdateLeadBody) :
    (statusAudit db p l b).filter (fun x =>
      x.type == ActivityType.Note && x.title == "Lead Reassigned") = [] := by
  unfold statusAudit
  split
  · split
    · simp [mkStatusChangeActivity]
    · rfl
  · rfl

/-- The status-change branch never attempts a leadAssigned notification. -/
lemma statusNotifs_filter_assigned (l : Lead) (b : UpdateLeadBody) :
    (statusNotifs l b).filter (fun n => n.kind == NotifKind.leadAssigned) = [] := by
  unfold statusNotifs
  split
  · split
    · split
      · simp
      · rfl
    · rfl
  · rfl

/-- When the body carries a non-null assignedToId differing from the stored
one, the reassignment branch emits exactly its audit note. -/
lemma reassignAudit_of_change {b : UpdateLeadBody} {a : Nat} (db : DB)
    (p : Principal) (l : Lead) (hb : b.assignedToId = some (some a)) (h0 : a ≠ 0)
    (hne : some a ≠ l.assignedToId) :
    reassignAudit db p l b =
      [mkReassignedActivity (db.nextActivityId + (statusAudit db p l b).length)
        p l.id] := by
  unfold reassignAudit
  rw [hb]
  simp [h0, hne]

/-- When the body's assignedToId is absent, explicitly null, or equal to the
stored value, the reassignment branch emits nothing. -/
lemma reassignAudit_of_nochange (db : DB) (p : Principal) (l : Lead)
    (b : UpdateLeadBody)
    (h : b.assignedToId = none ∨ b.assignedToId = some none ∨
      b.assignedToId = some l.assignedToId) :
    reassignAudit db p l b = [] := by
  unfold reassignAudit
  rcases h with h | h | h
  · rw [h]
  · rw [h]
  · rw [h]
    cases hl : l.assignedToId with
    | none => rfl
    | some a => simp

/-- The positive case of the reassignment notification attempt. -/
lemma reassignNotifs_of_change {b : UpdateLeadBody} {a : Nat} (l : Lead)
    (hb : b.assignedToId = some (some a)) (h0 : a ≠ 0)
    (hne : some a ≠ l.assignedToId) :
    reassignNotifs l b = [⟨a, NotifKind.leadAssigned⟩] := by
  have hupd : (applyUpdate l b).assignedToId = some a := by
    simp [applyUpdate, hb]
  unfold reassignNotifs
  rw [hb]
  simp [h0, hne, hupd]

/-- The zero case of the reassignment notification attempt. -/
lemma reassignNotifs_of_nochange (l : Lead) (b : UpdateLeadBody)
    (h : b.assignedToId = none ∨ b.assignedToId = some none ∨
      b.assignedToId = some l.assignedToId) :
    reassignNotifs l b = [] := by
  unfold reassignNotifs
  rcases h with h | h | h
  · rw [h]
  · rw [h]
  · rw [h]
    cases hl : l.assignedToId with
    | none => rfl
    | some a => simp

/-- C7: a successful PUT /api/leads/:id whose body changes the status from the
stored A to a different B creates exactly one 'Status Change' audit Activity,
and its metadata records oldStatus = A, newStatus = B; an update whose body
omits the status or repeats the stored one creates zero such Activities. -/
theorem lead_update_status_audit (db : DB) (p : Principal) (id : Nat)
    (b : UpdateLeadBody) (l lead' : Lead) (acts : List Activity)
    (notifs : List Notification) (hfind : findLead db id = some l)
    (hok : (updateLead db p id b).2 = .ok (lead', acts, notifs)) :
    (∀ s, b.status = some s → s ≠ l.status →
      acts.filter (fun a => a.type == ActivityType.StatusChange) =
        [mkStatusChangeActivity db.nextActivityId p l.id l.status s] ∧
      (mkStatusChangeActivity db.nextActivityId p l.id l.status s).metadata =
        [("oldStatus", l.status.str), ("newStatus", s.str)]) ∧
    ((b.status = none ∨ b.status = some l.status) →
      acts.filter (fun a => a.type == ActivityType.StatusChange) = []) := by
  obtain ⟨-, hacts, -⟩ :=
    updateLead_ok_parts db p id b l lead' acts notifs hfind hok
  subst hacts
  constructor
  · intro s hs hne
    refine ⟨?_, rfl⟩
    rw [List.filter_append, statusAudit_of_change db p l hs hne,
      reassignAudit_filter_statusChange]
    simp [mkStatusChangeActivity]
  · intro hs
    rw [List.filter_append, statusAudit_of_nochange db p l b hs,
      reassignAudit_filter_statusChange]
    rfl

/-- Witness for C7: Manager 3 moves lead 1 from New to Won; exactly one
'Status Change' audit activity with the old/new statuses results. -/
theorem lead_update_status_audit_witness :
    ([mkStatusChangeActivity 2 ⟨3, Role.Manager⟩ 1 Status.New Status.Won].filter
        (fun a => a.type == ActivityType.StatusChange) =
      [mkStatusChangeActivity db1.nextActivityId ⟨3, Role.Manager⟩ lead1.id
        lead1.status Status.Won]) ∧
    (mkStatusChangeActivity db1.nextActivityId ⟨3, Role.Manager⟩ lead1.id
        lead1.status Status.Won).metadata =
      [("oldStatus", lead1.status.str), ("newStatus", Status.Won.str)] :=
  (lead_update_status_audit db1 ⟨3, Role.Manager⟩ 1 bodyStatusWon lead1
    (applyUpdate lead1 bodyStatusWon)
    [mkStatusChangeActivity 2 ⟨3, Role.Manager⟩ 1 Status.New Status.Won]
    [⟨2, NotifKind.leadStatusChanged⟩] rfl (by rfl)).1 Status.Won rfl (by decide)

/-- C8 (refuted as stated): Manager 3 clears lead 5's assignedToId with an
explicit null — the stored value changes from user 5 to null, yet the update
succeeds with zero audit Activities and zero notification attempts, because
the handler's guard `req.body.assignedToId && ...` treats null as falsy. -/
theorem lead_reassign_null_counterexample :
    lead3.assignedToId = some 5 ∧
    (updateLead db2 ⟨3, Role.Manager⟩ 5 bodyAssignNull).2 =
      .ok (applyUpdate lead3 bodyAssignNull, [], []) ∧
    (applyUpdate lead3 bodyAssignNull).assignedToId = none :=
  ⟨by decide, by rfl, by decide⟩

/-- C8 as amended: a successful PUT /api/leads/:id whose body carries a
non-null assignedToId that differs from the stored value creates exactly one
'Lead Reassigned' Note on that lead by the acting principal and attempts one
leadAssigned notification to the new assignee; when the body omits
assignedToId, sets it to null, or repeats the stored value, zero such
Activities and zero such attempts result. -/
theorem lead_update_reassign_audit (db : DB) (p : Principal) (id : Nat)
    (b : UpdateLeadBody) (l lead' : Lead) (acts : List Activity)
    (notifs : List Notification) (hfind : findLead db id = some l)
    (hok : (updateLead db p id b).2 = .ok (lead', acts, notifs)) :
    (∀ a, b.assignedToId = some (some a) → a ≠ 0 → some a ≠ l.assignedToId →
      (acts.filter (fun x =>
          x.type == ActivityType.Note && x.title == "Lead Reassigned")).map
        (fun x => (x.leadId, x.userId)) = [(l.id, p.id)] ∧
      notifs.filter (fun n => n.kind == NotifKind.leadAssigned) =
        [⟨a, NotifKind.leadAssigned⟩]) ∧
    ((b.assignedToId = none ∨ b.assignedToId = some none ∨
        b.assignedToId = some l.assignedToId) →
      acts.filter (fun x =>
        x.type == ActivityType.Note && x.title == "Lead Reassigned") = [] ∧
      notifs.filter (fun n => n.kind == NotifKind.leadAssigned) = []) := by
  obtain ⟨-, hacts, hnotifs⟩ :=
    updateLead_ok_parts db p id b l lead' acts notifs hfind hok
  subst hacts
  subst hnotifs
  constructor
  · intro a hb h0 hne
    constructor
    · rw [List.filter_append, statusAudit_filter_reassigned,
        reassignAudit_of_change db p l hb h0 hne]
      simp [mkReassignedActivity]
    · rw [List.filter_append, statusNotifs_filter_assigned,
        reassignNotifs_of_change l hb h0 hne]
      simp
  · intro h
    constructor
    · rw [List.filter_append, statusAudit_filter_reassigned,
        reassignAudit_of_nochange db p l b h]
      rfl
    · rw [List.filter_append, statusNotifs_filter_assigned,
        reassignNotifs_of_nochange l b h]
      rfl

/-- Witness for C8's amended theorem: Manager 3 reassigns lead 5 (assigned to
user 5) to user 7; one 'Lead Reassigned' note on lead 5 and one notification
attempt to user 7 result. -/
theorem lead_update_reassign_audit_witness :
    (([mkReassignedActivity 1 ⟨3, Role.Manager⟩ 5].filter (fun x =>
        x.type == ActivityType.Note && x.title == "Lead Reassigned")).map
      (fun x => (x.leadId, x.userId)) = [(lead3.id, 3)]) ∧
    ([⟨7, NotifKind.leadAssigned⟩] : List Notification).filter
        (fun n => n.kind == NotifKind.leadAssigned) =
      [⟨7, NotifKind.leadAssigned⟩] :=
  (lead_update_reassign_audit db2 ⟨3, Role.Manager⟩ 5 bodyAssign7 lead3
    (applyUpdate lead3 bodyAssign7) [mkReassignedActivity 1 ⟨3, Role.Manager⟩ 5]
    [⟨7, NotifKind.leadAssigned⟩] rfl (by rfl)).1 7 rfl (by decide) (by decide)

/-- Rounding a non-negative value to two decimals stays non-negative. -/
lemma round2_nonneg {q : Rat} (h : 0 ≤ q) : 0 ≤ round2 q := by
  unfold round2
  have hf : (0 : Int) ≤ ⌊q * 100 + 1 / 2⌋ := by
    rw [Int.floor_nonneg]
    positivity
  have : (0 : Rat) ≤ ((⌊q * 100 + 1 / 2⌋ : Int) : Rat) := by exact_mod_cast hf
  positivity

/-- Rounding a value that is at most 100 to two decimals stays at most 100. -/
lemma round2_le_hundred {q : Rat} (h : q ≤ 100) : round2 q ≤ 100 := by
  unfold round2
  have h1 : q * 100 + 1 / 2 ≤ 10000 + 1 / 2 := by nlinarith
  have h2 : ⌊q * 100 + 1 / 2⌋ ≤ ⌊(10000 + 1 / 2 : Rat)⌋ := Int.floor_le_floor h1
  have h3 : ⌊(10000 + 1 / 2 : Rat)⌋ = 10000 := by
    rw [Int.floor_eq_iff]
    constructor <;> norm_num
  rw [h3] at h2
  have h4 : ((⌊q * 100 + 1 / 2⌋ : Int) : Rat) ≤ 10000 := by exact_mod_cast h2
  linarith

/-- C9: dashboardStats computes conversionRate as the Won share of the
visible leads times 100, rounded to two decimals, with the Won count taken
over the same visibility set as totalLeads; it is 0 when totalLeads = 0 and
always lies in [0, 100]. -/
theorem dashboard_conversion_rate (db : DB) (p : Principal) :
    (dashboardStats db p).totalLeads =
      (db.leads.filter (visibilityOk p)).length ∧
    (dashboardStats db p).wonLeads =
      ((db.leads.filter (visibilityOk p)).filter
        (fun l => l.status == Status.Won)).length ∧
    ((dashboardStats db p).totalLeads = 0 →
      (dashboardStats db p).conversionRate = 0) ∧
    ((dashboardStats db p).totalLeads > 0 →
      (dashboardStats db p).conversionRate =
        round2 ((((dashboardStats db p).wonLeads : Rat) /
          ((dashboardStats db p).totalLeads : Rat)) * 100)) ∧
    0 ≤ (dashboardStats db p).conversionRate ∧
    (dashboardStats db p).conversionRate ≤ 100 := by
  have htot : (dashboardStats db p).totalLeads =
      (db.leads.filter (visibilityOk p)).length := rfl
  have hwon : (dashboardStats db p).wonLeads =
      ((db.leads.filter (visibilityOk p)).filter
        (fun l => l.status == Status.Won)).length := rfl
  have hle : (dashboardStats db p).wonLeads ≤ (dashboardStats db p).totalLeads := by
    rw [htot, hwon]
    exact List.length_filter_le _ _
  have hrate : (dashboardStats db p).conversionRate =
      if (dashboardStats db p).totalLeads > 0 then
        round2 ((((dashboardStats db p).wonLeads : Rat) /
          ((dashboardStats db p).totalLeads : Rat)) * 100)
      else 0 := rfl
  refine ⟨htot, hwon, ?_, ?_, ?_, ?_⟩
  · intro h0
    rw [hrate, if_neg (by omega)]
  · intro hpos
    rw [hrate, if_pos hpos]
  · rw [hrate]
    by_cases hpos : (dashboardStats db p).totalLeads > 0
    · rw [if_pos hpos]
      apply round2_nonneg
      positivity
    · rw [if_neg hpos]
  · rw [hrate]
    by_cases hpos : (dashboardStats db p).totalLeads > 0
    · rw [if_pos hpos]
      apply round2_le_hundred
      have htpos : (0 : Rat) < ((dashboardStats db p).totalLeads : Rat) := by
        exact_mod_cast hpos
      have hdiv : (((dashboardStats db p).wonLeads : Rat) /
          ((dashboardStats db p).totalLeads : Rat)) ≤ 1 := by
        rw [div_le_one htpos]
        exact_mod_cast hle
      nlinarith
    · rw [if_neg hpos]
      norm_num

/-- Witness for C9: Sales Executive 1 sees exactly one lead in `db1` (the Won
`lead2`), so the conversion rate equals round2 of (1/1)·100. -/
theorem dashboard_conversion_rate_witness :
    (dashboardStats db1 ⟨1, Role.SalesExecutive⟩).conversionRate =
      round2 ((((dashboardStats db1 ⟨1, Role.SalesExecutive⟩).wonLeads : Rat) /
        ((dashboardStats db1 ⟨1, Role.SalesExecutive⟩).totalLeads : Rat)) * 100) :=
  (dashboard_conversion_rate db1 ⟨1, Role.SalesExecutive⟩).2.2.2.1 (by decide)

/-- C10: GET /api/activities applies no role-based scoping — its result is
independent of the requesting principal, every returned activity merely
matches the optional leadId/type filters, and every stored activity matching
them is eligible (in the pre-pagination set); by contrast, the dashboard's
recentActivities for a Sales Executive only ever contains the principal's own
authored activities. -/
theorem activity_list_unscoped (db : DB) (p p' : Principal) (q : ActivityQuery) :
    getActivities db p q = getActivities db p' q ∧
    (∀ a ∈ getActivities db p q, a ∈ db.activities ∧ activityWhere q a = true) ∧
    (∀ a ∈ db.activities, activityWhere q a = true →
      a ∈ db.activities.filter (activityWhere q)) ∧
    (p.role = Role.SalesExecutive →
      ∀ a ∈ (dashboardStats db p).recentActivities, a.userId = p.id) := by
  refine ⟨rfl, ?_, ?_, ?_⟩
  · intro a ha
    have ha' : a ∈ db.activities.filter (activityWhere q) :=
      List.mem_of_mem_drop (List.mem_of_mem_take ha)
    exact ⟨List.mem_of_mem_filter ha', List.of_mem_filter ha'⟩
  · intro a ha hm
    exact List.mem_filter.mpr ⟨ha, hm⟩
  · intro hrole a ha
    have ha' : a ∈ db.activities.filter (fun a =>
        if p.role == Role.SalesExecutive then a.userId == p.id else true) :=
      List.mem_of_mem_take ha
    have hcond := List.of_mem_filter ha'
    rw [hrole] at hcond
    simpa using hcond

/-- Witness for C10: Sales Executive 1 lists activity 1, authored by user 2 on
lead 1 — a lead user 1 neither is assigned to nor created. -/
theorem activity_list_unscoped_witness :
    act1.userId = 2 ∧ lead1.assignedToId = some 2 ∧ lead1.createdById = 2 ∧
    (act1 ∈ db1.activities ∧ activityWhere emptyActivityQuery act1 = true) ∧
    act1 ∈ getActivities db1 ⟨1, Role.SalesExecutive⟩ emptyActivityQuery :=
  ⟨by decide, by decide, by decide,
   (activity_list_unscoped db1 ⟨1, Role.SalesExecutive⟩ ⟨3, Role.Manager⟩
     emptyActivityQuery).2.1 act1 (by decide), by decide⟩

end SwiftCRM
